import Mathlib

/-!
Shallow embedding of the NearYou proximity-triggered enrichment pipeline
(`src/data_pipeline/operators.py` and `src/data_pipeline/bytewax_flow.py`).

Python dicts flowing through the dataflow are embedded as the `Event`
structure with `Option` fields for keys that may be absent.  Database and
HTTP effects are embedded as explicit outcome parameters (`StoreResult`,
`HttpResult`); the metrics bus (`Subject.notify`) is embedded as the list of
event-type strings notified during a step.  Python floats are embedded as
exact rationals; `random.random()` / `random.randint` / `random.uniform`
draws are explicit parameters.
-/

namespace NearYou

/-- Metrics-bus event type, as passed to `DatabaseConnections.notify`. -/
abbrev Metric := String

/-- Python `str.lower()` (ASCII view), applied characterwise. -/
def pyLower (s : String) : String :=
  String.mk (s.toList.map Char.toLower)

/-- Python `str.strip()` with no argument: drop whitespace at both ends. -/
def pyStrip (s : String) : String :=
  String.mk (((s.toList.dropWhile Char.isWhitespace).reverse.dropWhile Char.isWhitespace).reverse)

/-- Does the list start with the given pattern? -/
def listStartsWith : List Char → List Char → Bool
  | _, [] => true
  | [], _ :: _ => false
  | a :: as, b :: bs => a = b && listStartsWith as bs

/-- Python `pat in s` substring test on character lists. -/
def containsSub : List Char → List Char → Bool
  | [], pat => pat.isEmpty
  | a :: rest, pat => listStartsWith (a :: rest) pat || containsSub rest pat

/-- Python `pat in s` substring test on strings. -/
def strContains (s pat : String) : Bool :=
  containsSub s.toList pat.toList

/-- Replace every non-overlapping occurrence of `pat` left to right, as
Python `str.replace`; fuel bounds the recursion by the input length. -/
def replaceAux (pat repl : List Char) : Nat → List Char → List Char
  | 0, s => s
  | _ + 1, [] => []
  | fuel + 1, c :: rest =>
    if listStartsWith (c :: rest) pat then
      repl ++ replaceAux pat repl fuel (List.drop (pat.length - 1) rest)
    else
      c :: replaceAux pat repl fuel rest

/-- Python `s.replace(pat, repl)` for a non-empty pattern (every pattern the
source passes is a non-empty constant). -/
def pyReplace (s pat repl : String) : String :=
  if pat = "" then s
  else String.mk (replaceAux pat.toList repl.toList s.toList.length s.toList)

/-- Scan for the closing bracket of a `\[.*?\]` regex match: the characters
up to the first `]`, failing on a newline (regex `.` does not cross lines).
Returns the remainder after the `]` on success. -/
def scanClose : List Char → Option (List Char)
  | [] => none
  | c :: rest =>
    if c = ']' then some rest
    else if c = '\n' then none
    else scanClose rest

/-- Core of `re.sub(r'\[.*?\]', repl, s)`: leftmost scan, each shortest
bracketed span replaced by `repl`; an unmatched `[` is kept literally. -/
def bracketSubAux (repl : List Char) : Nat → List Char → List Char
  | 0, s => s
  | _ + 1, [] => []
  | fuel + 1, c :: rest =>
    if c = '[' then
      match scanClose rest with
      | some rest2 => repl ++ bracketSubAux repl fuel rest2
      | none => c :: bracketSubAux repl fuel rest
    else
      c :: bracketSubAux repl fuel rest

/-- Python `re.sub(r'\[.*?\]', repl, s)`. -/
def bracketSub (s repl : String) : String :=
  String.mk (bracketSubAux repl.toList s.toList.length s.toList)

/-- Distance threshold for messages (`MAX_POI_DISTANCE = 200` metri). -/
def MAX_POI_DISTANCE : ℚ := 200

/-- Base visit probability (`VISIT_PROBABILITY_BASE = 0.3`). -/
def VISIT_PROBABILITY_BASE : ℚ := 3 / 10

/-- Row returned by the PostGIS nearest-neighbour query in
`_find_nearest_shop` (shop_id, shop_name, category, distance). -/
structure ShopRow where
  shop_id : Int
  shop_name : String
  category : String
  distance : ℚ
  deriving Repr, DecidableEq

/-- Row returned by the ClickHouse `users` lookup in `_get_user_profile`. -/
structure UserProfile where
  user_id : Int
  age : Int
  profession : String
  interests : String
  deriving Repr, DecidableEq

/-- Event dict as it flows through the Bytewax operators; keys that a stage
may or may not have set are `Option` fields (a `none` is an absent key). -/
structure Event where
  user_id : Int
  latitude : ℚ
  longitude : ℚ
  timestamp : String
  offset : Nat
  shop_id : Option Int := none
  shop_name : Option String := none
  category : Option String := none
  distance : Option ℚ := none
  poi_info : Option String := none
  visited_shop : Option Bool := none
  visited_shop_id : Option Int := none
  deriving Repr, DecidableEq

/-- Notification text of an event as the sink reads it:
`event.get("poi_info", "")`. -/
def notificationText (e : Event) : String :=
  e.poi_info.getD ""

/-- Visited flag of an event as the sink reads it: the truthiness of
`event.get("visited_shop")` (an absent key reads as false). -/
def visitedFlag (e : Event) : Bool :=
  e.visited_shop.getD false

/-- Outcome of one external-store query: a row, an empty result set, or a
raised exception with its message. -/
inductive StoreResult (α : Type) where
  | found (a : α)
  | empty
  | failure (err : String)
  deriving Repr, DecidableEq

/-- Outcome of the HTTP POST to the message-generator service: a response
with status and body message, or a raised exception (timeout, malformed
body). -/
inductive HttpResult where
  | ok (status : Nat) (message : String)
  | exn (err : String)
  deriving Repr, DecidableEq

/-- Embedding of `_find_nearest_shop`: a found row notifies `shop_found`, an
exception notifies `error`, both the empty store and the exception give
`None` back to the caller. -/
def find_nearest_shop : StoreResult ShopRow → Option ShopRow × List Metric
  | .found row => (some row, ["shop_found"])
  | .empty => (none, [])
  | .failure _ => (none, ["error"])

/-- Embedding of `_get_user_profile`: an exception is caught, notifies
`error` and returns `None`, exactly like an empty result set. -/
def get_user_profile : StoreResult UserProfile → Option UserProfile × List Metric
  | .found p => (some p, [])
  | .empty => (none, [])
  | .failure _ => (none, ["error"])

/-- In-memory message cache `DatabaseConnections._message_cache`, an
association list with the most recent write first (a Python dict write
overwrites, so lookup takes the first hit). -/
abbrev Cache := List (String × String)

/-- Embedding of `DatabaseConnections.get_cache_key`. -/
def get_cache_key (user_id shop_id : Int) : String :=
  toString user_id ++ ":" ++ toString shop_id

/-- Lookup in the message cache. -/
def cacheLookup : Cache → String → Option String
  | [], _ => none
  | (k, v) :: rest, key => if k = key then some v else cacheLookup rest key

/-- Embedding of `DatabaseConnections.cache_message` (dict assignment). -/
def cacheInsert (c : Cache) (key v : String) : Cache :=
  (key, v) :: c

/-- Embedding of `DatabaseConnections.get_cached_message`: a present key
notifies `cache_hit`, an absent key notifies `cache_miss`. -/
def get_cached_message (c : Cache) (user_id shop_id : Int) : Option String × List Metric :=
  match cacheLookup c (get_cache_key user_id shop_id) with
  | some m => (some m, ["cache_hit"])
  | none => (none, ["cache_miss"])

/-- Placeholder sanitization applied to a 200 response in
`_generate_message`: the literal replacements, then the bracket regex. -/
def sanitize_message (message shop_name : String) : String :=
  let m1 := pyReplace message "[Nome del Negozio" shop_name
  let m2 := pyReplace m1 "Nome del Negozio" shop_name
  let m3 := pyReplace m2 "\x7bshop_name\x7d" shop_name
  let m4 := pyReplace m3 "\x7bname\x7d" shop_name
  bracketSub m4 shop_name

/-- Result of one `_generate_message` call: text returned, cache state on
exit, metrics notified, and whether the external client was invoked. -/
structure GenResult where
  text : String
  cache : Cache
  metrics : List Metric
  clientCalled : Bool
  deriving Repr, DecidableEq

/-- The API-call half of `_generate_message` (everything after the cache
check): a 200 response is sanitized, cached and returned with a
`message_generated` metric; any other status or exception returns the empty
string, caches nothing and notifies `error`. `pre` carries the metrics the
cache check already notified. -/
def generate_message_api (cache : Cache) (http : HttpResult) (pre : List Metric)
    (user : UserProfile) (shop : ShopRow) : GenResult :=
  match http with
  | .ok status msg =>
    if status = 200 then
      let m := sanitize_message msg shop.shop_name
      { text := m
        cache := cacheInsert cache (get_cache_key user.user_id shop.shop_id) m
        metrics := pre ++ ["message_generated"]
        clientCalled := true }
    else
      { text := "", cache := cache, metrics := pre ++ ["error"], clientCalled := true }
  | .exn _ =>
    { text := "", cache := cache, metrics := pre ++ ["error"], clientCalled := true }

/-- Embedding of `_generate_message`: the Python guard `if cached_message:`
is on truthiness, so a cached empty string falls through to the API call. -/
def generate_message (cache : Cache) (http : HttpResult)
    (user : UserProfile) (shop : ShopRow) : GenResult :=
  match get_cached_message cache user.user_id shop.shop_id with
  | (some m, ms) =>
    if m = "" then generate_message_api cache http ms user shop
    else { text := m, cache := cache, metrics := ms, clientCalled := false }
  | (none, ms) => generate_message_api cache http ms user shop

/-- Longest digit run at the head of the list, with the remainder. -/
def takeDigits : List Char → List Char × List Char
  | [] => ([], [])
  | c :: rest =>
    if c.isDigit then
      let p := takeDigits rest
      (c :: p.1, p.2)
    else ([], c :: rest)

/-- Numeric value of a digit run. -/
def digitsToNat (ds : List Char) : Nat :=
  ds.foldl (fun acc c => acc * 10 + (c.toNat - 48)) 0

/-- Embedding of `re.search(r'(\d+)%', message)` in `_should_simulate_visit`:
the leftmost maximal digit run directly followed by a percent sign. -/
def findDiscount : List Char → Option Nat
  | [] => none
  | c :: rest =>
    if c.isDigit then
      let p := takeDigits (c :: rest)
      match p.2 with
      | '%' :: _ => some (digitsToNat p.1)
      | _ => findDiscount rest
    else findDiscount rest

/-- Per-category probability multipliers in `_should_simulate_visit`
(`category_multipliers.get(category, 1.0)`). -/
def category_multiplier (category : String) : ℚ :=
  if category = "ristorante" then 12 / 10
  else if category = "bar" then 13 / 10
  else if category = "gelateria" then 14 / 10
  else if category = "abbigliamento" then 11 / 10
  else if category = "supermercato" then 9 / 10
  else if category = "farmacia" then 7 / 10
  else 1

/-- Amount added to the base probability in `_should_simulate_visit`: 0.3
when the message carries a discount indicator (`"%" in message` or
`"sconto"`/`"offerta"` in its lowercase), plus `min(discount/100, 0.4)` when
a `(\d+)%` percentage parses; 0 otherwise. -/
def discount_bonus (message : String) : ℚ :=
  if strContains message "%" || strContains (pyLower message) "sconto"
      || strContains (pyLower message) "offerta" then
    match findDiscount message.toList with
    | some d => 3 / 10 + min ((d : ℚ) / 100) (4 / 10)
    | none => 3 / 10
  else 0

/-- Age/category adjustment factor in `_should_simulate_visit`: 1.2 for
`bar`/`gelateria` under 35, 1.3 for `farmacia` over 50, else 1. -/
def age_category_multiplier (age : Int) (category : String) : ℚ :=
  if (category = "bar" || category = "gelateria") && age < 35 then 12 / 10
  else if category = "farmacia" && age > 50 then 13 / 10
  else 1

/-- Probability handed to the Bernoulli draw in `_should_simulate_visit`:
the base plus the discount bonus, times the category multiplier, times the
age/category adjustment, capped at 0.9 (the source accumulates the same
product in a mutable `probability` variable). -/
def visit_probability (user : UserProfile) (shop : ShopRow) (message : String) : ℚ :=
  min ((VISIT_PROBABILITY_BASE + discount_bonus message)
        * category_multiplier (pyLower shop.category)
        * age_category_multiplier user.age (pyLower shop.category))
      (9 / 10)

/-- Embedding of `_should_simulate_visit`: false for an empty or blank
message, otherwise a Bernoulli draw of the injected `random.random()` value
against `visit_probability`. -/
def should_simulate_visit (user : UserProfile) (shop : ShopRow) (message : String)
    (rand : ℚ) : Bool :=
  if message = "" || pyStrip message = "" then false
  else decide (rand < visit_probability user shop message)

/-- Per-category visit duration ranges (`VISIT_DURATION_RANGES`, default
`(10, 30)`). -/
def VISIT_DURATION_RANGES (category : String) : Nat × Nat :=
  if category = "ristorante" then (15, 45)
  else if category = "bar" then (5, 20)
  else if category = "supermercato" then (10, 30)
  else if category = "abbigliamento" then (15, 40)
  else if category = "elettronica" then (20, 60)
  else if category = "farmacia" then (3, 10)
  else if category = "libreria" then (10, 30)
  else if category = "gelateria" then (5, 15)
  else if category = "parrucchiere" then (30, 90)
  else if category = "palestra" then (45, 120)
  else (10, 30)

/-- Per-category spending ranges in `_create_simulated_visit`
(`spending_ranges`, default `(10, 50)`). -/
def SPENDING_RANGES (category : String) : ℚ × ℚ :=
  if category = "ristorante" then (15, 80)
  else if category = "bar" then (3, 15)
  else if category = "supermercato" then (20, 120)
  else if category = "abbigliamento" then (25, 200)
  else if category = "elettronica" then (50, 500)
  else if category = "farmacia" then (8, 40)
  else if category = "libreria" then (10, 50)
  else if category = "gelateria" then (3, 12)
  else if category = "parrucchiere" then (25, 80)
  else if category = "palestra" then (30, 100)
  else (10, 50)

/-- Python `random.randint(lo, hi)` driven by an explicit draw `r`. -/
def randint (lo hi r : Nat) : Nat :=
  lo + r % (hi - lo + 1)

/-- Explicit random draws consumed by one `_create_simulated_visit` call. -/
structure VisitRand where
  durationR : Nat
  offerR : ℚ
  spendingU : ℚ
  satisfactionR : Nat
  visitIdR : Nat
  deriving Repr, DecidableEq

/-- Pieces of `datetime.now()` that `_create_simulated_visit` reads. -/
structure TimeInfo where
  weekday : Nat
  hour : Nat
  deriving Repr, DecidableEq

/-- Row inserted into `user_visits` (the fields with content; the constant
`offer_id = 0` and empty `weather_condition` included). -/
structure SimulatedVisit where
  visit_id : Nat
  user_id : Int
  shop_id : Int
  offer_id : Nat
  duration_minutes : Nat
  offer_accepted : Bool
  estimated_spending : ℚ
  satisfaction : Nat
  day_of_week : Nat
  hour_of_day : Nat
  weather_condition : String
  user_age : Int
  user_profession : String
  user_interests : String
  shop_name : String
  shop_category : String
  deriving Repr, DecidableEq

/-- The `user_visits` row `_create_simulated_visit` builds: duration by
per-category `randint`, 70% offer acceptance, spending by per-category
`random.uniform`, satisfaction `randint(6, 10)`, visit id
`randint(100000, 999999)`. -/
def build_visit (user : UserProfile) (shop : ShopRow) (now : TimeInfo)
    (r : VisitRand) : SimulatedVisit :=
  let category := pyLower shop.category
  let dr := VISIT_DURATION_RANGES category
  let sr := SPENDING_RANGES category
  { visit_id := randint 100000 999999 r.visitIdR
    user_id := user.user_id
    shop_id := shop.shop_id
    offer_id := 0
    duration_minutes := randint dr.1 dr.2 r.durationR
    offer_accepted := decide (r.offerR < 7 / 10)
    estimated_spending := sr.1 + r.spendingU * (sr.2 - sr.1)
    satisfaction := randint 6 10 r.satisfactionR
    day_of_week := now.weekday + 1
    hour_of_day := now.hour
    weather_condition := ""
    user_age := user.age
    user_profession := user.profession
    user_interests := user.interests
    shop_name := shop.shop_name
    shop_category := shop.category }

/-- Embedding of `_create_simulated_visit`: the row is built, the ClickHouse
insert either succeeds (`visit_simulated` notified, row persisted) or raises
(caught, `error` notified, nothing persisted); the caller sees no exception
either way. -/
def create_simulated_visit (user : UserProfile) (shop : ShopRow) (now : TimeInfo)
    (r : VisitRand) (writeOk : Bool) : Option SimulatedVisit × List Metric :=
  let visit := build_visit user shop now r
  if writeOk then (some visit, ["visit_simulated"]) else (none, ["error"])

/-- The shop fields of an event as the helpers read them
(`shop["shop_id"]`, `shop["shop_name"]`, `shop.get("category", "")`,
`shop["distance"]`); on the pipeline path every field was set by the enrich
merge, so the defaults are never observed there. -/
def shopOf (e : Event) : ShopRow :=
  { shop_id := e.shop_id.getD 0
    shop_name := e.shop_name.getD ""
    category := e.category.getD ""
    distance := e.distance.getD 0 }

/-- Effects trace of one `check_proximity_and_generate_message` call. -/
structure StepTrace where
  metrics : List Metric
  profileLookupDone : Bool
  clientCalled : Bool
  persistedVisit : Option SimulatedVisit
  deriving Repr, DecidableEq

/-- Trace of a step that did nothing. -/
def emptyTrace : StepTrace :=
  { metrics := [], profileLookupDone := false, clientCalled := false, persistedVisit := none }

/-- External outcomes consumed by one `check_proximity_and_generate_message`
call: the profile query, the HTTP call, the Bernoulli draw, the visit
randomness, the wall clock, and whether the visit insert succeeds. -/
structure ProcCtx where
  profile : StoreResult UserProfile
  http : HttpResult
  visitRand : ℚ
  vr : VisitRand
  now : TimeInfo
  visitWriteOk : Bool
  deriving Repr, DecidableEq

/-- Embedding of the `enrich_with_nearest_shop` operator: a found shop is
merged into the event dict (`event.update(shop)`) and the pair re-emitted;
no shop (empty store or query error) emits nothing. -/
def enrich_with_nearest_shop (shopStore : StoreResult ShopRow)
    (item : String × Event) : List (String × Event) × List Metric :=
  let f := find_nearest_shop shopStore
  match f with
  | (some shop, m) =>
    ([(item.1, { item.2 with
        shop_id := some shop.shop_id
        shop_name := some shop.shop_name
        category := some shop.category
        distance := some shop.distance })],
     ["processing_start"] ++ m ++ ["processing_end", "event_processed"])
  | (none, m) =>
    ([], ["processing_start"] ++ m ++ ["processing_end", "event_processed"])

/-- Distance gate of `check_proximity_and_generate_message`:
`event.get("distance", float("inf")) > MAX_POI_DISTANCE`, so an absent
distance key gates the event out. -/
def distance_gate (dist : Option ℚ) : Bool :=
  match dist with
  | none => true
  | some d => decide (MAX_POI_DISTANCE < d)

/-- Embedding of the `check_proximity_and_generate_message` operator.  The
gated branch sets only `poi_info = ""` and returns before the profile
lookup.  Otherwise a missing profile (or profile-store error) gives an empty
message and `visited_shop = False`; a generated message gives the visit
simulation its chance, and a blank message forces `visited_shop = False`. -/
def check_proximity_and_generate_message (cache : Cache) (ctx : ProcCtx)
    (item : String × Event) : List (String × Event) × Cache × StepTrace :=
  let key := item.1
  let event := item.2
  if distance_gate event.distance then
    ([(key, { event with poi_info := some "" })], cache,
     { metrics := ["processing_start", "processing_end"]
       profileLookupDone := false, clientCalled := false, persistedVisit := none })
  else
    match get_user_profile ctx.profile with
    | (some user, pm) =>
      let g := generate_message cache ctx.http user (shopOf event)
      let event1 := { event with poi_info := some g.text }
      if g.text ≠ "" ∧ pyStrip g.text ≠ "" then
        if should_simulate_visit user (shopOf event) g.text ctx.visitRand then
          let v := create_simulated_visit user (shopOf event) ctx.now ctx.vr ctx.visitWriteOk
          ([(key, { event1 with visited_shop := some true, visited_shop_id := event.shop_id })],
           g.cache,
           { metrics := ["processing_start"] ++ pm ++ g.metrics ++ v.2 ++ ["processing_end"]
             profileLookupDone := true, clientCalled := g.clientCalled, persistedVisit := v.1 })
        else
          ([(key, { event1 with visited_shop := some false })], g.cache,
           { metrics := ["processing_start"] ++ pm ++ g.metrics ++ ["processing_end"]
             profileLookupDone := true, clientCalled := g.clientCalled, persistedVisit := none })
      else
        ([(key, { event1 with visited_shop := some false })], g.cache,
         { metrics := ["processing_start"] ++ pm ++ g.metrics ++ ["processing_end"]
           profileLookupDone := true, clientCalled := g.clientCalled, persistedVisit := none })
    | (none, pm) =>
      ([(key, { event with poi_info := some "", visited_shop := some false })], cache,
       { metrics := ["processing_start"] ++ pm ++ ["processing_end"]
         profileLookupDone := true, clientCalled := false, persistedVisit := none })

/-- Row written to the `user_events` sink by `write_to_clickhouse`
(`event_id, event_time, user_id, latitude, longitude, poi_range, poi_name,
poi_info`; the timestamp column is kept as the raw string here). -/
structure SinkRow where
  event_id : Nat
  user_id : Int
  latitude : ℚ
  longitude : ℚ
  poi_range : ℚ
  poi_name : String
  poi_info : String
  deriving Repr, DecidableEq

/-- Embedding of the `write_to_clickhouse` operator: the whole body is one
try/except, so a failed insert (or timestamp parse) notifies `error` and
persists nothing, and no exception leaves the operator. -/
def write_to_clickhouse (writeOk : Bool) (item : String × Event) :
    Option SinkRow × List Metric :=
  let event := item.2
  if writeOk then
    (some { event_id := event.offset
            user_id := event.user_id
            latitude := event.latitude
            longitude := event.longitude
            poi_range := event.distance.getD 0
            poi_name := event.shop_name.getD ""
            poi_info := event.poi_info.getD "" },
     ["processing_start", "processing_end"])
  else
    (none, ["processing_start", "error", "processing_end"])

/-- One event's passage through the dataflow stages as wired in
`build_dataflow` (enrich, proximity/message, sink write), with the operators
applied to the event tuples they would receive. -/
def pipeline (shopStore : StoreResult ShopRow) (ctx : ProcCtx) (cache : Cache)
    (sinkOk : Bool) (item : String × Event) :
    List (Option SinkRow) × StepTrace :=
  let e := enrich_with_nearest_shop shopStore item
  match e.1 with
  | [] => ([], emptyTrace)
  | x :: _ =>
    let c := check_proximity_and_generate_message cache ctx x
    (c.1.map (fun o => (write_to_clickhouse sinkOk o).1), c.2.2)

/-- Python callable with its count of positional parameters. -/
structure PyFunc where
  positional_params : Nat
  deriving Repr, DecidableEq

/-- Outcome of a Python call: a wrong argument count raises `TypeError`
before the body runs. -/
inductive PyCallOutcome where
  | typeError
  | invoked
  deriving Repr, DecidableEq

/-- Python positional-call semantics on the argument count. -/
def pyCall (f : PyFunc) (args : Nat) : PyCallOutcome :=
  if args = f.positional_params then .invoked else .typeError

/-- Signature of `def enrich_with_nearest_shop(item)`: one positional
parameter. -/
def enrich_with_nearest_shop_sig : PyFunc := { positional_params := 1 }

/-- Signature of `def check_proximity_and_generate_message(item)`: one
positional parameter. -/
def check_proximity_and_generate_message_sig : PyFunc := { positional_params := 1 }

/-- Signature of `def write_to_clickhouse(item)`: one positional
parameter. -/
def write_to_clickhouse_sig : PyFunc := { positional_params := 1 }

/-- The three operator invocations `build_dataflow` wires
(`lambda x: enrich_with_nearest_shop(x, db_conn)` and likewise for the other
two): each passes two positional arguments. -/
def build_dataflow_calls : List (PyFunc × Nat) :=
  [(enrich_with_nearest_shop_sig, 2),
   (check_proximity_and_generate_message_sig, 2),
   (write_to_clickhouse_sig, 2)]

/-- Fixture user profile (age 25, as in end-to-end scenario 1). -/
def userA : UserProfile :=
  { user_id := 1, age := 25, profession := "studente", interests := "sport" }

/-- Fixture shop row: category `bar` at 120 m. -/
def shopA : ShopRow :=
  { shop_id := 7, shop_name := "Bar Roma", category := "bar", distance := 120 }

/-- Fixture raw position event, before any enrichment. -/
def eventA : Event :=
  { user_id := 1, latitude := 454642 / 10000, longitude := 91900 / 10000
    timestamp := "2025-01-01T10:00:00", offset := 0 }

/-- Fixture event already enriched with a shop 350 m away (gated out). -/
def eventGated : Event :=
  { eventA with
    shop_id := some 7
    shop_name := some "Bar Roma"
    category := some "bar"
    distance := some 350 }

/-- Fixture event already enriched with a shop 120 m away (eligible). -/
def eventNear : Event :=
  { eventA with
    shop_id := some 7
    shop_name := some "Bar Roma"
    category := some "bar"
    distance := some 120 }

/-- Fixture processing context: profile found, generator answers 200. -/
def ctxA : ProcCtx :=
  { profile := .found userA, http := .ok 200 "Ciao"
    visitRand := 0, vr := ⟨0, 0, 1 / 2, 0, 0⟩, now := ⟨0, 12⟩, visitWriteOk := true }

/-- C1: `build_dataflow` wires each operator through a lambda passing the
event tuple and `db_conn` — two positional arguments — while
`enrich_with_nearest_shop`, `check_proximity_and_generate_message` and
`write_to_clickhouse` each declare a single `item` parameter, so every wired
invocation raises a `TypeError` instead of running the operator body. -/
theorem build_dataflow_calls_raise_type_error :
    ∀ c ∈ build_dataflow_calls, pyCall c.1 c.2 = PyCallOutcome.typeError := by
  decide

/-- Witness for C1 at the first wired call (`enrich_with_nearest_shop`). -/
theorem build_dataflow_calls_raise_type_error_witness :
    pyCall enrich_with_nearest_shop_sig 2 = PyCallOutcome.typeError :=
  build_dataflow_calls_raise_type_error (enrich_with_nearest_shop_sig, 2) (by decide)

/-- C2: an event whose nearest-shop distance exceeds `MAX_POI_DISTANCE` is
re-emitted with empty `poi_info` and an unset (hence false) visited flag,
and neither the profile lookup nor the generation client runs. -/
theorem gated_event_has_empty_message_and_no_visit
    (cache : Cache) (ctx : ProcCtx) (key : String) (event : Event) (d : ℚ)
    (hd : event.distance = some d) (hfar : MAX_POI_DISTANCE < d)
    (hv : event.visited_shop = none) :
    (check_proximity_and_generate_message cache ctx (key, event)).1 =
      [(key, { event with poi_info := some "" })] ∧
    (∀ p ∈ (check_proximity_and_generate_message cache ctx (key, event)).1,
      notificationText p.2 = "" ∧ visitedFlag p.2 = false) ∧
    (check_proximity_and_generate_message cache ctx (key, event)).2.2.profileLookupDone = false ∧
    (check_proximity_and_generate_message cache ctx (key, event)).2.2.clientCalled = false := by
  have hgate : distance_gate event.distance = true := by
    rw [hd]
    simp [distance_gate, hfar]
  have hg : check_proximity_and_generate_message cache ctx (key, event) =
      ([(key, { event with poi_info := some "" })], cache,
       { metrics := ["processing_start", "processing_end"]
         profileLookupDone := false, clientCalled := false, persistedVisit := none }) := by
    unfold check_proximity_and_generate_message
    simp only [hgate]
    simp
  rw [hg]
  refine ⟨rfl, ?_, rfl, rfl⟩
  intro p hp
  simp only [List.mem_singleton] at hp
  subst hp
  simp [notificationText, visitedFlag, hv]

/-- Witness for C2: the gated fixture event at 350 m. -/
theorem gated_event_has_empty_message_and_no_visit_witness :
    (check_proximity_and_generate_message [] ctxA ("1", eventGated)).1 =
      [("1", { eventGated with poi_info := some "" })] ∧
    (∀ p ∈ (check_proximity_and_generate_message [] ctxA ("1", eventGated)).1,
      notificationText p.2 = "" ∧ visitedFlag p.2 = false) ∧
    (check_proximity_and_generate_message [] ctxA ("1", eventGated)).2.2.profileLookupDone = false ∧
    (check_proximity_and_generate_message [] ctxA ("1", eventGated)).2.2.clientCalled = false :=
  gated_event_has_empty_message_and_no_visit [] ctxA "1" eventGated 350 rfl
    (by norm_num [MAX_POI_DISTANCE]) rfl

/-- C3: every event `check_proximity_and_generate_message` emits satisfies
the invariant: an empty notification text forces a false visited flag — on
the gated, profile-missing, generation-failure/blank-message and
visit-decision paths alike (the input event, fresh from the enrich stage,
carries no visited key yet). -/
theorem empty_notification_implies_not_visited
    (cache : Cache) (ctx : ProcCtx) (key : String) (event : Event)
    (hv : event.visited_shop = none) :
    ∀ p ∈ (check_proximity_and_generate_message cache ctx (key, event)).1,
      notificationText p.2 = "" → visitedFlag p.2 = false := by
  intro p hp hn
  unfold check_proximity_and_generate_message at hp
  by_cases hgate : distance_gate event.distance
  · simp only [hgate, if_true] at hp
    simp only [List.mem_singleton] at hp
    subst hp
    simp [visitedFlag, hv]
  · simp only [hgate, Bool.false_eq_true, if_false] at hp
    rcases hup : get_user_profile ctx.profile with ⟨op, pm⟩
    rw [hup] at hp
    rcases op with _ | user
    · simp only at hp
      simp only [List.mem_singleton] at hp
      subst hp
      simp [visitedFlag]
    · simp only at hp
      by_cases hguard : (generate_message cache ctx.http user (shopOf event)).text ≠ "" ∧
          pyStrip (generate_message cache ctx.http user (shopOf event)).text ≠ ""
      · rw [if_pos hguard] at hp
        by_cases hsim : should_simulate_visit user (shopOf event)
            (generate_message cache ctx.http user (shopOf event)).text ctx.visitRand
        · simp only [hsim, if_true] at hp
          simp only [List.mem_singleton] at hp
          subst hp
          simp only [notificationText, Option.getD_some] at hn
          exact absurd hn hguard.1
        · simp only [hsim, Bool.false_eq_true, if_false] at hp
          simp only [List.mem_singleton] at hp
          subst hp
          simp [visitedFlag]
      · rw [if_neg hguard] at hp
        simp only [List.mem_singleton] at hp
        subst hp
        simp [visitedFlag]

/-- Witness for C3: the gated fixture event, whose single output has empty
notification and a false visited flag. -/
theorem empty_notification_implies_not_visited_witness :
    visitedFlag { eventGated with poi_info := some "" } = false :=
  empty_notification_implies_not_visited [] ctxA "1" eventGated rfl
    ("1", { eventGated with poi_info := some "" })
    (by
      have hgate : distance_gate eventGated.distance = true := by
        norm_num [distance_gate, eventGated, eventA, MAX_POI_DISTANCE]
      simp [check_proximity_and_generate_message, hgate])
    rfl

/-- C4 counterexample: when the first `generate()` call for a pair fails
(non-200), nothing is cached, so the second call for the same pair invokes
the external client again and can return different text with a `cache_miss`
metric — refuting the unconditional claim for the pair `(1, 7)` with a 500
then a 200 response. -/
theorem second_generate_call_can_reinvoke_client :
    (generate_message [] (HttpResult.ok 500 "") userA shopA).text = "" ∧
    (generate_message (generate_message [] (HttpResult.ok 500 "") userA shopA).cache
        (HttpResult.ok 200 "Ciao") userA shopA).clientCalled = true ∧
    (generate_message (generate_message [] (HttpResult.ok 500 "") userA shopA).cache
        (HttpResult.ok 200 "Ciao") userA shopA).text = "Ciao" ∧
    (generate_message (generate_message [] (HttpResult.ok 500 "") userA shopA).cache
        (HttpResult.ok 200 "Ciao") userA shopA).metrics =
      ["cache_miss", "message_generated"] := by
  decide

/-- C4 amended: once a first `generate()` call for a pair has succeeded with
a 200 response whose sanitized text is non-empty, the second call for that
pair returns byte-identical text, does not invoke the external client, and
emits exactly a `cache_hit` metric. -/
theorem second_generate_call_hits_cache_after_success
    (cache : Cache) (user : UserProfile) (shop : ShopRow) (msg : String) (http2 : HttpResult)
    (hne : sanitize_message msg shop.shop_name ≠ "") :
    (generate_message (generate_message cache (HttpResult.ok 200 msg) user shop).cache
        http2 user shop).text =
      (generate_message cache (HttpResult.ok 200 msg) user shop).text ∧
    (generate_message (generate_message cache (HttpResult.ok 200 msg) user shop).cache
        http2 user shop).clientCalled = false ∧
    (generate_message (generate_message cache (HttpResult.ok 200 msg) user shop).cache
        http2 user shop).metrics = ["cache_hit"] := by
  rcases h : cacheLookup cache (get_cache_key user.user_id shop.shop_id) with _ | m
  · simp [generate_message, get_cached_message, generate_message_api, cacheInsert,
      cacheLookup, h, hne]
  · by_cases hm : m = ""
    · subst hm
      simp [generate_message, get_cached_message, generate_message_api, cacheInsert,
        cacheLookup, h, hne]
    · simp [generate_message, get_cached_message, h, hm]

/-- Witness for the amended C4: first call succeeds with `Ciao`, second call
(whatever the service would answer) hits the cache. -/
theorem second_generate_call_hits_cache_after_success_witness :
    (generate_message (generate_message [] (HttpResult.ok 200 "Ciao") userA shopA).cache
        (HttpResult.ok 200 "Altro") userA shopA).text =
      (generate_message [] (HttpResult.ok 200 "Ciao") userA shopA).text ∧
    (generate_message (generate_message [] (HttpResult.ok 200 "Ciao") userA shopA).cache
        (HttpResult.ok 200 "Altro") userA shopA).clientCalled = false ∧
    (generate_message (generate_message [] (HttpResult.ok 200 "Ciao") userA shopA).cache
        (HttpResult.ok 200 "Altro") userA shopA).metrics = ["cache_hit"] :=
  second_generate_call_hits_cache_after_success [] userA shopA "Ciao"
    (HttpResult.ok 200 "Altro") (by decide)

/-- Did the generation call fail (non-200 status, or an exception such as a
timeout or malformed body)? -/
def httpFailed : HttpResult → Bool
  | .ok s _ => decide (s ≠ 200)
  | .exn _ => true

/-- C5: when the external client fails (non-200 or exception) and the cache
holds no usable entry for the pair (so the client is actually reached),
`generate()` returns the empty string, leaves the cache unchanged, emits an
`error` metric, and — being a total function here, mirroring the
try/except — propagates no exception. -/
theorem generation_failure_degrades_to_empty
    (cache : Cache) (user : UserProfile) (shop : ShopRow) (http : HttpResult)
    (hfail : httpFailed http = true)
    (hc : ∀ m, cacheLookup cache (get_cache_key user.user_id shop.shop_id) = some m → m = "") :
    (generate_message cache http user shop).text = "" ∧
    (generate_message cache http user shop).cache = cache ∧
    "error" ∈ (generate_message cache http user shop).metrics ∧
    (generate_message cache http user shop).clientCalled = true := by
  have hapi : ∀ pre, generate_message_api cache http pre user shop =
      { text := "", cache := cache, metrics := pre ++ ["error"], clientCalled := true } := by
    intro pre
    cases http with
    | ok s m =>
      have hs : ¬(s = 200) := by simpa [httpFailed] using hfail
      simp [generate_message_api, hs]
    | exn e => simp [generate_message_api]
  rcases h : cacheLookup cache (get_cache_key user.user_id shop.shop_id) with _ | m
  · simp [generate_message, get_cached_message, h, hapi]
  · have hm := hc m h
    subst hm
    simp [generate_message, get_cached_message, h, hapi]

/-- Witness for C5: a 500 response on an empty cache. -/
theorem generation_failure_degrades_to_empty_witness :
    (generate_message [] (HttpResult.ok 500 "x") userA shopA).text = "" ∧
    (generate_message [] (HttpResult.ok 500 "x") userA shopA).cache = [] ∧
    "error" ∈ (generate_message [] (HttpResult.ok 500 "x") userA shopA).metrics ∧
    (generate_message [] (HttpResult.ok 500 "x") userA shopA).clientCalled = true :=
  generation_failure_degrades_to_empty [] userA shopA (HttpResult.ok 500 "x") (by decide)
    (by intro m h; simp [cacheLookup] at h)

/-- Discount bonus is never negative. -/
theorem discount_bonus_nonneg (message : String) : 0 ≤ discount_bonus message := by
  unfold discount_bonus
  split_ifs
  · rcases h : findDiscount message.toList with _ | d
    · simp only [h]
      norm_num
    · simp only [h]
      have hmin : (0 : ℚ) ≤ min ((d : ℚ) / 100) (4 / 10) := le_min (by positivity) (by norm_num)
      linarith
  · exact le_refl 0

/-- Category multiplier is never negative, the unknown-category fallback
weight 1 included. -/
theorem category_multiplier_nonneg (category : String) : 0 ≤ category_multiplier category := by
  unfold category_multiplier
  split_ifs <;> norm_num

/-- Age/category adjustment is never negative. -/
theorem age_category_multiplier_nonneg (age : Int) (category : String) :
    0 ≤ age_category_multiplier age category := by
  unfold age_category_multiplier
  split_ifs <;> norm_num

/-- C6: for every profile, every shop — categories absent from the weight
table falling back to weight 1.0 — and every non-blank message, the
probability handed to the Bernoulli draw in `_should_simulate_visit` lies
within [0, 0.9]; the computation is a total function of its inputs, so it
never throws. -/
theorem visit_probability_within_bounds
    (user : UserProfile) (shop : ShopRow) (message : String)
    (_hm : message ≠ "" ∧ pyStrip message ≠ "") :
    0 ≤ visit_probability user shop message ∧
    visit_probability user shop message ≤ 9 / 10 := by
  constructor
  · unfold visit_probability
    apply le_min _ (by norm_num)
    have h1 : 0 ≤ VISIT_PROBABILITY_BASE + discount_bonus message := by
      have := discount_bonus_nonneg message
      unfold VISIT_PROBABILITY_BASE
      linarith
    exact mul_nonneg (mul_nonneg h1 (category_multiplier_nonneg _))
      (age_category_multiplier_nonneg _ _)
  · unfold visit_probability
    exact min_le_right _ _

/-- Witness for C6 at the fixture inputs with a plain non-blank message. -/
theorem visit_probability_within_bounds_witness :
    0 ≤ visit_probability userA shopA "Ciao" ∧
    visit_probability userA shopA "Ciao" ≤ 9 / 10 :=
  visit_probability_within_bounds userA shopA "Ciao" (by decide)

/-- C7 counterexample: the profile lookup returns `None` both for an absent
user and for a store exception (`"timeout"` here), so the caller's return
value cannot distinguish the two — refuting the claimed distinct outcomes. -/
theorem profile_absence_and_store_error_return_same_value :
    (get_user_profile StoreResult.empty).1 = none ∧
    (get_user_profile (StoreResult.failure "timeout")).1 = none ∧
    (get_user_profile StoreResult.empty).1 =
      (get_user_profile (StoreResult.failure "timeout")).1 := by
  decide

/-- C7 amended: for every store error, `_get_user_profile` returns the same
`None` an absent user produces — both make the caller skip enrichment
identically — and only the metrics bus tells them apart (the error path
alone notifies `error`). -/
theorem profile_lookup_conflates_absence_with_error (err : String) :
    (get_user_profile (StoreResult.failure err)).1 =
      (get_user_profile StoreResult.empty).1 ∧
    (get_user_profile StoreResult.empty).2 = [] ∧
    (get_user_profile (StoreResult.failure err)).2 = ["error"] := by
  exact ⟨rfl, rfl, rfl⟩

/-- Fixture shop row 350 m away, for the gated pipeline scenario. -/
def shopFar : ShopRow := { shopA with distance := 350 }

/-- C8 counterexample: an event whose nearest-shop query finds nothing
(`Dropped`) is removed from the stream by `enrich_with_nearest_shop` — the
operator returns the empty list — so no EnrichedEvent (empty-notification
or otherwise) exists and nothing reaches the sink, refuting the claim that
`Dropped` events still yield an empty-notification EnrichedEvent. -/
theorem dropped_event_yields_no_enriched_event :
    (enrich_with_nearest_shop StoreResult.empty ("1", eventA)).1 = [] ∧
    (pipeline StoreResult.empty ctxA [] true ("1", eventA)).1 = [] := by
  decide

/-- C8 amended: a `Dropped` event (no shop found, by empty store or query
error) is discarded entirely — no EnrichedEvent, nothing for the sink —
while a `Gated-out` event (shop found beyond the threshold) short-circuits
the profile lookup and the generation client and still reaches the Sink
Writer as an EnrichedEvent with empty notification text. -/
theorem dropped_discarded_gated_reaches_sink_empty
    (shopStore : StoreResult ShopRow) (ctx : ProcCtx) (cache : Cache)
    (key : String) (event : Event) (row : ShopRow)
    (hdrop : (find_nearest_shop shopStore).1 = none)
    (hfar : MAX_POI_DISTANCE < row.distance) :
    (enrich_with_nearest_shop shopStore (key, event)).1 = [] ∧
    (∃ srow : SinkRow,
      (pipeline (StoreResult.found row) ctx cache true (key, event)).1 = [some srow] ∧
      srow.poi_info = "" ∧
      (pipeline (StoreResult.found row) ctx cache true (key, event)).2.profileLookupDone = false ∧
      (pipeline (StoreResult.found row) ctx cache true (key, event)).2.clientCalled = false) := by
  constructor
  · cases shopStore with
    | found r => simp [find_nearest_shop] at hdrop
    | empty => simp [enrich_with_nearest_shop, find_nearest_shop]
    | failure e => simp [enrich_with_nearest_shop, find_nearest_shop]
  · have hgate : distance_gate (some row.distance) = true := by
      simp [distance_gate, hfar]
    refine ⟨{ event_id := event.offset, user_id := event.user_id
              latitude := event.latitude, longitude := event.longitude
              poi_range := row.distance, poi_name := row.shop_name, poi_info := "" },
      ?_, rfl, ?_, ?_⟩
    all_goals
      simp [pipeline, enrich_with_nearest_shop, find_nearest_shop,
        check_proximity_and_generate_message, hgate, write_to_clickhouse]

/-- Witness for the amended C8: the empty shop store drops the fixture
event; the 350 m fixture shop gates it out into an empty-notification sink
row. -/
theorem dropped_discarded_gated_reaches_sink_empty_witness :
    (enrich_with_nearest_shop StoreResult.empty ("1", eventA)).1 = [] ∧
    (∃ srow : SinkRow,
      (pipeline (StoreResult.found shopFar) ctxA [] true ("1", eventA)).1 = [some srow] ∧
      srow.poi_info = "" ∧
      (pipeline (StoreResult.found shopFar) ctxA [] true ("1", eventA)).2.profileLookupDone = false ∧
      (pipeline (StoreResult.found shopFar) ctxA [] true ("1", eventA)).2.clientCalled = false) :=
  dropped_discarded_gated_reaches_sink_empty StoreResult.empty ctxA [] "1" eventA shopFar
    rfl (by norm_num [MAX_POI_DISTANCE, shopFar, shopA])

/-- C9 counterexample: with the same category and the same random draws,
the recorder computes identical estimated spending (and satisfaction) for a
25-year-old on a Monday and a 70-year-old on a Sunday —
`_create_simulated_visit` applies no weekday/weekend or age adjustment, so
the claimed adjusted spending draw is refuted at this input. -/
theorem spending_ignores_weekday_and_age :
    (build_visit userA shopA ⟨0, 12⟩ ⟨0, 0, 1 / 2, 0, 0⟩).estimated_spending =
      (build_visit { userA with age := 70 } shopA ⟨6, 20⟩
        ⟨0, 0, 1 / 2, 0, 0⟩).estimated_spending ∧
    (build_visit userA shopA ⟨0, 12⟩ ⟨0, 0, 1 / 2, 0, 0⟩).satisfaction =
      (build_visit { userA with age := 70 } shopA ⟨6, 20⟩
        ⟨0, 0, 1 / 2, 0, 0⟩).satisfaction :=
  ⟨rfl, rfl⟩

/-- A `randint lo hi` draw stays within `[lo, hi]` when `lo ≤ hi`. -/
theorem randint_bounds (lo hi r : Nat) (h : lo ≤ hi) :
    lo ≤ randint lo hi r ∧ randint lo hi r ≤ hi := by
  unfold randint
  have hm : r % (hi - lo + 1) < hi - lo + 1 := Nat.mod_lt _ (by omega)
  omega

/-- Every per-category duration range is well-ordered. -/
theorem duration_range_ordered (c : String) :
    (VISIT_DURATION_RANGES c).1 ≤ (VISIT_DURATION_RANGES c).2 := by
  unfold VISIT_DURATION_RANGES
  split_ifs <;> norm_num

/-- Every per-category spending range is well-ordered. -/
theorem spending_range_ordered (c : String) :
    (SPENDING_RANGES c).1 ≤ (SPENDING_RANGES c).2 := by
  unfold SPENDING_RANGES
  split_ifs <;> norm_num

/-- C9 amended: the synthesized visit draws its duration from the
per-category range and its estimated spending uniformly from the
per-category range — with no weekday/weekend or age adjustment: changing
the user and the wall clock leaves the spending unchanged — while
satisfaction is drawn uniformly from 6..10, the top half of the 1-10 scale
(not a right-skewed distribution). -/
theorem visit_record_drawn_from_category_ranges
    (user : UserProfile) (shop : ShopRow) (now : TimeInfo) (vr : VisitRand)
    (hu0 : 0 ≤ vr.spendingU) (hu1 : vr.spendingU ≤ 1) :
    ((VISIT_DURATION_RANGES (pyLower shop.category)).1 ≤
        (build_visit user shop now vr).duration_minutes ∧
      (build_visit user shop now vr).duration_minutes ≤
        (VISIT_DURATION_RANGES (pyLower shop.category)).2) ∧
    ((SPENDING_RANGES (pyLower shop.category)).1 ≤
        (build_visit user shop now vr).estimated_spending ∧
      (build_visit user shop now vr).estimated_spending ≤
        (SPENDING_RANGES (pyLower shop.category)).2) ∧
    (6 ≤ (build_visit user shop now vr).satisfaction ∧
      (build_visit user shop now vr).satisfaction ≤ 10) ∧
    (∀ (user2 : UserProfile) (now2 : TimeInfo),
      (build_visit user2 shop now2 vr).estimated_spending =
        (build_visit user shop now vr).estimated_spending) := by
  refine ⟨?_, ?_, ?_, fun user2 now2 => rfl⟩
  · simpa [build_visit] using
      randint_bounds _ _ vr.durationR (duration_range_ordered (pyLower shop.category))
  · have hd : (0 : ℚ) ≤ (SPENDING_RANGES (pyLower shop.category)).2 -
        (SPENDING_RANGES (pyLower shop.category)).1 := by
      have := spending_range_ordered (pyLower shop.category)
      linarith
    constructor
    · have := mul_nonneg hu0 hd
      simp only [build_visit]
      linarith
    · have := mul_le_of_le_one_left hd hu1
      simp only [build_visit]
      linarith
  · simpa [build_visit] using randint_bounds 6 10 vr.satisfactionR (by norm_num)

/-- Witness for the amended C9 at the fixture inputs with a mid-range
uniform draw. -/
theorem visit_record_drawn_from_category_ranges_witness :
    ((VISIT_DURATION_RANGES (pyLower shopA.category)).1 ≤
        (build_visit userA shopA ⟨0, 12⟩ ⟨0, 0, 1 / 2, 0, 0⟩).duration_minutes ∧
      (build_visit userA shopA ⟨0, 12⟩ ⟨0, 0, 1 / 2, 0, 0⟩).duration_minutes ≤
        (VISIT_DURATION_RANGES (pyLower shopA.category)).2) ∧
    ((SPENDING_RANGES (pyLower shopA.category)).1 ≤
        (build_visit userA shopA ⟨0, 12⟩ ⟨0, 0, 1 / 2, 0, 0⟩).estimated_spending ∧
      (build_visit userA shopA ⟨0, 12⟩ ⟨0, 0, 1 / 2, 0, 0⟩).estimated_spending ≤
        (SPENDING_RANGES (pyLower shopA.category)).2) ∧
    (6 ≤ (build_visit userA shopA ⟨0, 12⟩ ⟨0, 0, 1 / 2, 0, 0⟩).satisfaction ∧
      (build_visit userA shopA ⟨0, 12⟩ ⟨0, 0, 1 / 2, 0, 0⟩).satisfaction ≤ 10) ∧
    (∀ (user2 : UserProfile) (now2 : TimeInfo),
      (build_visit user2 shopA now2 ⟨0, 0, 1 / 2, 0, 0⟩).estimated_spending =
        (build_visit userA shopA ⟨0, 12⟩ ⟨0, 0, 1 / 2, 0, 0⟩).estimated_spending) :=
  visit_record_drawn_from_category_ranges userA shopA ⟨0, 12⟩ ⟨0, 0, 1 / 2, 0, 0⟩
    (by norm_num) (by norm_num)

/-- Category multiplier is strictly positive. -/
theorem category_multiplier_pos (category : String) : 0 < category_multiplier category := by
  unfold category_multiplier
  split_ifs <;> norm_num

/-- Age/category adjustment is strictly positive. -/
theorem age_category_multiplier_pos (age : Int) (category : String) :
    0 < age_category_multiplier age category := by
  unfold age_category_multiplier
  split_ifs <;> norm_num

/-- The Bernoulli probability is strictly positive for every input. -/
theorem visit_probability_pos (user : UserProfile) (shop : ShopRow) (message : String) :
    0 < visit_probability user shop message := by
  unfold visit_probability
  apply lt_min _ (by norm_num)
  have h1 : 0 < VISIT_PROBABILITY_BASE + discount_bonus message := by
    have := discount_bonus_nonneg message
    unfold VISIT_PROBABILITY_BASE
    linarith
  exact mul_pos (mul_pos h1 (category_multiplier_pos _)) (age_category_multiplier_pos _ _)

/-- C10: on an eligible event with a found profile, a non-blank generated
message and a yes visit decision, the emitted event reports
`visited_shop = True` even when the recorder's ClickHouse insert fails —
the failure is caught inside `_create_simulated_visit` (an `error` metric
only), so the sink record claims a visit that was never persisted. -/
theorem visited_true_despite_failed_visit_write
    (cache : Cache) (ctx : ProcCtx) (key : String) (event : Event)
    (user : UserProfile) (d : ℚ)
    (hd : event.distance = some d) (hnear : d ≤ MAX_POI_DISTANCE)
    (hp : ctx.profile = StoreResult.found user)
    (hguard : (generate_message cache ctx.http user (shopOf event)).text ≠ "" ∧
      pyStrip (generate_message cache ctx.http user (shopOf event)).text ≠ "")
    (hsim : should_simulate_visit user (shopOf event)
      (generate_message cache ctx.http user (shopOf event)).text ctx.visitRand = true)
    (hw : ctx.visitWriteOk = false) :
    (check_proximity_and_generate_message cache ctx (key, event)).1.map
        (fun p => visitedFlag p.2) = [true] ∧
    (check_proximity_and_generate_message cache ctx (key, event)).2.2.persistedVisit = none ∧
    "error" ∈ (check_proximity_and_generate_message cache ctx (key, event)).2.2.metrics := by
  have hgate : distance_gate event.distance = false := by
    rw [hd]
    simp only [distance_gate]
    exact decide_eq_false (not_lt.mpr hnear)
  unfold check_proximity_and_generate_message
  rw [hp]
  simp only [hgate, Bool.false_eq_true, if_false, get_user_profile]
  rw [if_pos hguard]
  simp only [hsim, if_true]
  simp [create_simulated_visit, hw, visitedFlag]

/-- Fixture context for C10: profile found, generator answers 200 with a
discount message, the visit insert fails. -/
def ctxVisit : ProcCtx :=
  { profile := .found userA, http := .ok 200 "Sconto 20% da Bar Roma!"
    visitRand := 0, vr := ⟨0, 0, 1 / 2, 0, 0⟩, now := ⟨0, 12⟩, visitWriteOk := false }

/-- Witness for C10: the near fixture event with a failing visit insert
still reports a visited event, persists nothing and notifies an error. -/
theorem visited_true_despite_failed_visit_write_witness :
    (check_proximity_and_generate_message [] ctxVisit ("1", eventNear)).1.map
        (fun p => visitedFlag p.2) = [true] ∧
    (check_proximity_and_generate_message [] ctxVisit ("1", eventNear)).2.2.persistedVisit = none ∧
    "error" ∈ (check_proximity_and_generate_message [] ctxVisit ("1", eventNear)).2.2.metrics :=
  visited_true_despite_failed_visit_write [] ctxVisit "1" eventNear userA 120
    rfl (by norm_num [MAX_POI_DISTANCE]) rfl
    (by decide)
    (by
      unfold should_simulate_visit
      have hx : (decide ((generate_message [] ctxVisit.http userA (shopOf eventNear)).text = "") ||
          decide (pyStrip (generate_message [] ctxVisit.http userA (shopOf eventNear)).text = ""))
            = false := by
        decide
      simp only [hx, Bool.false_eq_true, if_false]
      exact decide_eq_true (visit_probability_pos userA (shopOf eventNear) _))
    rfl

end NearYou
